import Mathlib

/-!
Shallow embedding of the mv-animator timeline / frame-mapping / export core.

Source files embedded here:
- `src/src/components/AnimationPlayer.tsx` (timeline generation, slot
  selection, image assignment, GIF frame mapping, GIF compositing loop)
- `src/src/components/FrameEditor.tsx` (GIF compositing loop, remove-image)
- `src/public/pyodide-worker.js` (worker export backend)
- the export modal component (in-browser PNG-sequence zip naming, export
  guard)

Numbers that are IEEE doubles in the source are modelled as exact rationals
(`ℚ`); fallible paths are modelled with `Except`/`Option`.  The component
constant `FPS = 24` is kept as a constant; functions that close over it in
the source are lambda-lifted over `fps` where the specification quantifies
over it.
-/

namespace MVAnimator

/-- One timeline slot: `{ id, time, image }` from `AnimationPlayer.tsx`.
`image : string | null` is modelled as `Option String` (`none` = JS `null`). -/
structure FrameData where
  id : Nat
  time : ℚ
  image : Option String
deriving DecidableEq, Repr

/-- The component constant `const FPS = 24`. -/
def FPS : ℚ := 24

/-- `generateFrames` from `AnimationPlayer.tsx` (lines 43-61): builds
`Math.ceil(audioDuration * FPS)` slots `{id: i, time: i / FPS, image: null}`
but only when `frames.length === 0`; otherwise it leaves `frames` unchanged.
Lambda-lifted over `fps` (the source closes over the constant `FPS`). -/
def generateFrames (frames : List FrameData) (audioDuration fps : ℚ) :
    List FrameData :=
  if frames.length = 0 then
    (List.range (⌈audioDuration * fps⌉).toNat).map
      (fun i => ⟨i, (i : ℚ) / fps, none⟩)
  else frames

/-- The frame-selection step shared by `handleAudioProcess` (lines 110-118)
and `updateOnSeek` (lines 121-132) of `AnimationPlayer.tsx`:
`frameIndex = Math.floor(time * FPS)`, and the selected frame is updated only
when `0 ≤ frameIndex < frames.length`; otherwise the previous selection is
kept (there is no clamping in the source). -/
def selectSlotForTime (selected : Option Nat) (t : ℚ) (len : Nat) :
    Option Nat :=
  if 0 ≤ ⌊t * FPS⌋ ∧ ⌊t * FPS⌋ < (len : Int) then some (⌊t * FPS⌋).toNat
  else selected

/-- The clamped selection the specification describes:
`floor(t * fps)` clamped into `[0, length-1]`.  Modelled from the spec words
for comparison with `selectSlotForTime` (the code). -/
def selectSlotForTimeSpec (t : ℚ) (len : Nat) : Int :=
  min (max ⌊t * FPS⌋ 0) ((len : Int) - 1)

/-- `handleImageUpload` from `AnimationPlayer.tsx` (lines 222-228): guarded by
`frameId >= 0 && frameId < frames.length`; inside the guard it maps over the
slots replacing the image of those whose `id` equals `frameId`.  The id is an
`Int` so that negative (out-of-range) ids are representable. -/
def handleImageUpload (frames : List FrameData) (frameId : Int)
    (image : String) : List FrameData :=
  if 0 ≤ frameId ∧ frameId < (frames.length : Int) then
    frames.map (fun f =>
      if (f.id : Int) = frameId then { f with image := some image } else f)
  else frames

/-- `handleRemoveImage` from `FrameEditor.tsx` (lines 168-170): it calls the
upload callback with the empty string, i.e. assigns `''` to the slot. -/
def handleRemoveImage (frames : List FrameData) (frameId : Int) :
    List FrameData :=
  handleImageUpload frames frameId ""

/-- The `GifInfo` payload handed to `handleGifProcessed`:
`{ frames: string[], totalDuration: seconds }`. -/
structure GifInfo where
  frames : List String
  totalDuration : ℚ
deriving DecidableEq, Repr

/-- `audioFramesForGif = Math.ceil(gifInfo.totalDuration * FPS)` from
`handleGifProcessed` (`AnimationPlayer.tsx` line 375), lambda-lifted over
`fps`. -/
def audioFramesForGif (gifInfo : GifInfo) (fps : ℚ) : Nat :=
  (⌈gifInfo.totalDuration * fps⌉).toNat

/-- `endFrameId = Math.min(startFrameId + audioFramesForGif, frames.length)`
(`AnimationPlayer.tsx` line 380). -/
def endFrameId (frames : List FrameData) (gifInfo : GifInfo) (fps : ℚ)
    (startFrameId : Nat) : Nat :=
  min (startFrameId + audioFramesForGif gifInfo fps) frames.length

/-- `availableFrames = endFrameId - startFrameId`
(`AnimationPlayer.tsx` line 383); `Nat` subtraction models the fact that the
JS loop does not run when the difference is not positive. -/
def availableFrames (frames : List FrameData) (gifInfo : GifInfo) (fps : ℚ)
    (startFrameId : Nat) : Nat :=
  endFrameId frames gifInfo fps startFrameId - startFrameId

/-- `gifFrameIndex = Math.min(Math.floor((i / availableFrames) *
gifInfo.frames.length), gifInfo.frames.length - 1)`
(`AnimationPlayer.tsx` lines 388-391). -/
def gifFrameIndex (i available gifLen : Nat) : Nat :=
  (min ⌊((i : ℚ) / (available : ℚ)) * (gifLen : ℚ)⌋ ((gifLen : Int) - 1)).toNat

/-- One JS array element assignment
`updatedFrames[idx] = { ...updatedFrames[idx], image: img }`. -/
def setImage : List FrameData → Nat → Option String → List FrameData
  | [], _, _ => []
  | f :: fs, 0, img => { f with image := img } :: fs
  | f :: fs, n + 1, img => f :: setImage fs n img

/-- `handleGifProcessed` from `AnimationPlayer.tsx` (lines 370-403): the
`for (let i = 0; i < availableFrames; i++)` loop assigning
`gifInfo.frames[gifFrameIndex]` to slot `startFrameId + i`, modelled as a
fold over `List.range availableFrames`. -/
def handleGifProcessed (frames : List FrameData) (gifInfo : GifInfo)
    (fps : ℚ) (startFrameId : Nat) : List FrameData :=
  (List.range (availableFrames frames gifInfo fps startFrameId)).foldl
    (fun acc i =>
      setImage acc (startFrameId + i)
        (gifInfo.frames[gifFrameIndex i
          (availableFrames frames gifInfo fps startFrameId)
          gifInfo.frames.length]?))
    frames

/-! ### GIF decoder / compositor (`processGif` in `FrameEditor.tsx` lines
93-134 and `processGifForFrame` in `AnimationPlayer.tsx` lines 309-350).

Canvas pixels are modelled as `Nat` (0 = transparent); a canvas is a list of
rows.  `putImageData` replaces the target rectangle outright (no blending),
`clearRect` over the whole canvas resets every pixel, and `getImageData`
snapshots the whole canvas (lists are values, so a snapshot is the value
itself). -/

/-- One decoded GIF sub-frame as used by the compositing loop: the pixel
`patch` with its declared dimensions/offset (`dims.left`, `dims.top`) and
its `disposalType`. -/
structure GifSubFrame where
  patch : List (List Nat)
  left : Nat
  top : Nat
  disposalType : Nat
deriving DecidableEq, Repr

/-- A canvas: rows of pixels. -/
abbrev Canvas := List (List Nat)

/-- `ctx.clearRect(0, 0, canvas.width, canvas.height)`: a `w × h` canvas of
transparent pixels. -/
def clearCanvas (w h : Nat) : Canvas :=
  List.replicate h (List.replicate w 0)

/-- `ctx.putImageData(imageData, left, top)`: overwrite the rectangle of
`canvas` whose top-left corner is `(left, top)` with `patch`. -/
def putPatch (canvas : Canvas) (patch : List (List Nat)) (left top : Nat) :
    Canvas :=
  canvas.mapIdx fun y row =>
    row.mapIdx fun x px =>
      if top ≤ y ∧ left ≤ x then
        (((patch[y - top]?).bind fun prow => prow[x - left]?).getD px)
      else px

/-- The compositing loop of `processGif` / `processGifForFrame`: iterate over
the sub-frames carrying the canvas and `previousImageData` (the snapshot
taken after disposal handling and before drawing, lines 118-119 / 334-335);
`prevFrame` is `none` exactly at the first iteration (`i = 0`), where the
canvas is cleared (line 113-116 / 329-332). -/
def processGifAux (w h : Nat) :
    List GifSubFrame → Option GifSubFrame → Canvas → Option Canvas →
      List Canvas
  | [], _, _, _ => []
  | f :: rest, prevFrame, canvas, previousImageData =>
    let canvas1 :=
      match prevFrame with
      | none => clearCanvas w h
      | some prevF =>
        if prevF.disposalType = 2 then clearCanvas w h
        else if prevF.disposalType = 3 then
          match previousImageData with
          | some d => d
          | none => canvas
        else canvas
    let canvas2 := putPatch canvas1 f.patch f.left f.top
    canvas2 :: processGifAux w h rest (some f) canvas2 (some canvas1)

/-- `processGif`: run the compositing loop from a fresh (blank) canvas,
returning one composited output bitmap per decoded sub-frame. -/
def processGif (w h : Nat) (frames : List GifSubFrame) : List Canvas :=
  processGifAux w h frames none (clearCanvas w h) none

/-- Modelled from the spec: the disposal step between two frames as the
specification words it — disposal 2 clears the canvas to transparent,
disposal 3 restores the snapshot captured immediately before the previous
frame's patch was drawn, and any other disposal leaves the canvas (the
previous output) unchanged. -/
def disposeStep (w h : Nat) (snapshot output : Canvas) (disposalType : Nat) :
    Canvas :=
  if disposalType = 2 then clearCanvas w h
  else if disposalType = 3 then snapshot
  else output

/-- Modelled from the spec: the compositor as the specification describes
it — each frame is drawn on the canvas obtained by disposing of the previous
frame, the canvas is snapshotted before each draw, and one output bitmap is
emitted per input frame.  The `snapshot` argument is the canvas state
immediately before the current frame's patch is drawn (a cleared canvas for
frame 0). -/
def compositeSpec (w h : Nat) : List GifSubFrame → Canvas → List Canvas
  | [], _ => []
  | f :: rest, snapshot =>
    let output := putPatch snapshot f.patch f.left f.top
    output :: compositeSpec w h rest (disposeStep w h snapshot output f.disposalType)

/-! ### Export pipeline (`pyodide-worker.js`, the export modal components,
`PythonExportService.ts`). -/

/-- JS truthiness of `frame.image`: `null` and `''` are falsy, every other
string is truthy.  Every export path filters with
`frames.filter(frame => frame.image)`. -/
def isPopulated (f : FrameData) : Bool :=
  match f.image with
  | none => false
  | some s => if s = "" then false else true

/-- `framesToExport = frames.filter(frame => frame.image)` — the filter used
identically by `generateMovie` (`pyodide-worker.js` line 158),
`exportAsPngSequence`, `exportAsGif` and `exportAsVideo`. -/
def framesToExport (frames : List FrameData) : List FrameData :=
  frames.filter (fun f => isPopulated f)

/-- Fixed-width zero-padded decimal rendering: Python `f"frame_{i:04d}"` and
JS `String(id).padStart(4, '0')` agree on this for non-negative input. -/
def pad4 (n : Nat) : String :=
  let s := toString n
  String.mk (List.replicate (4 - s.length) '0') ++ s

/-- Archive entry names produced by `create_png_sequence`
(`pyodide-worker.js` lines 97-128): `frame_{i:04d}.png` where `i` is the
sequential index of the frame in the (already filtered) payload list. -/
def create_png_sequence_entryNames (frames : List String) : List String :=
  (List.range frames.length).map (fun i => "frame_" ++ pad4 i ++ ".png")

/-- The error message of the `create_video` stub in `pyodide-worker.js`
(lines 130-138), re-thrown by `generateMovie` (lines 217-219). -/
def videoStubError : String :=
  "Full video generation requires additional libraries not available in Pyodide. Please use GIF or PNG sequence export."

/-- The empty-export error thrown by `generateMovie`
(`pyodide-worker.js` lines 160-162). -/
def noFramesError : String := "No frames with images to export"

/-- The observable result of one worker `generate` call: for `png` the
`data` field holds the archive entry names, for `gif` the encoded frame
payloads (the actual pixel encoding is outside the model). -/
structure ExportResult where
  data : List String
  mimeType : String
  extension : String
deriving DecidableEq, Repr

/-- `generateMovie` from `pyodide-worker.js` (lines 145-229): filter out
frames with no images, fail when none remain, then dispatch on `format`;
`mp4`/`webm` run the `create_video` stub whose error object is re-thrown. -/
def generateMovie (format : String) (frames : List FrameData) :
    Except String ExportResult :=
  if (framesToExport frames).length = 0 then .error noFramesError
  else if format = "gif" then
    .ok ⟨(framesToExport frames).map (fun f => f.image.getD ""),
      "image/gif", "gif"⟩
  else if format = "png" then
    .ok ⟨create_png_sequence_entryNames
        ((framesToExport frames).map (fun f => f.image.getD "")),
      "application/zip", "zip"⟩
  else if format = "mp4" ∨ format = "webm" then .error videoStubError
  else .error ("Unsupported format: " ++ format)

/-- A worker response to one `generate` request (`pyodide-worker.js` lines
19-28): `complete` with the result on success, `error` with the message
otherwise. -/
inductive WorkerResponse where
  | complete : ExportResult → WorkerResponse
  | error : String → WorkerResponse
deriving DecidableEq, Repr

/-- The worker `onmessage` handling of a `generate` request. -/
def workerGenerate (format : String) (frames : List FrameData) :
    WorkerResponse :=
  match generateMovie format frames with
  | .ok r => .complete r
  | .error e => .error e

/-- Outcome of the export modal's `handleExport` guard: either the export is
aborted up front or an encode for the requested format is attempted. -/
inductive ExportOutcome where
  | aborted : ExportOutcome
  | attempted : String → ExportOutcome
deriving DecidableEq, Repr

/-- The guard at the top of `handleExport` (export modal, lines 115-119):
`if (frames.length === 0 || frames.every(frame => !frame.image))` abort
before any backend is dispatched. -/
def handleExport (frames : List FrameData) (format : String) :
    ExportOutcome :=
  if frames.length = 0 ∨ frames.all (fun f => !(isPopulated f)) then .aborted
  else .attempted format

/-- Archive entry names produced by the in-browser `exportAsPngSequence`
(export modal, lines 412-473): each populated frame is stored as
`frame_${String(frame.id).padStart(4, '0')}.png` — named by the slot id, not
by a sequential index. -/
def exportAsPngSequence_entryNames (frames : List FrameData) :
    Except String (List String) :=
  if (framesToExport frames).length = 0 then .error noFramesError
  else .ok ((framesToExport frames).map
    (fun f => "frame_" ++ pad4 f.id ++ ".png"))

/-! ### Concrete fixtures used by witnesses and counterexamples. -/

/-- A 100-slot timeline (duration `25/6` s at 24 fps). -/
def timeline100 : List FrameData := generateFrames [] (25/6) 24

/-- A 10-frame, 1-second GIF asset. -/
def gif10 : GifInfo :=
  ⟨["g0", "g1", "g2", "g3", "g4", "g5", "g6", "g7", "g8", "g9"], 1⟩

/-- A 3-slot timeline with empty images. -/
def frames3 : List FrameData :=
  [⟨0, 0, none⟩, ⟨1, 1/24, none⟩, ⟨2, 2/24, none⟩]

/-- A single populated slot. -/
def frames1 : List FrameData := [⟨0, 0, some "img"⟩]

/-- A 15-slot timeline whose populated slots are exactly ids 10..14. -/
def frames15 : List FrameData :=
  (List.range 15).map
    (fun i => ⟨i, (i : ℚ) / 24, if 10 ≤ i then some "img" else none⟩)

/-- Two slots that are both unpopulated (a `null` image and a `''` image). -/
def framesBlank : List FrameData := [⟨0, 0, none⟩, ⟨1, 1/24, some ""⟩]

/-! ### Helper lemmas -/

theorem setImage_length (l : List FrameData) (idx : Nat) (img : Option String) :
    (setImage l idx img).length = l.length := by
  induction l generalizing idx with
  | nil => rfl
  | cons f fs ih =>
    cases idx with
    | zero => simp [setImage]
    | succ n => simp [setImage, ih]

theorem setImage_getElem? (l : List FrameData) (idx : Nat) (img : Option String)
    (j : Nat) :
    (setImage l idx img)[j]? =
      if j = idx then (l[j]?).map (fun f => { f with image := img })
      else l[j]? := by
  induction l generalizing idx j with
  | nil => simp [setImage]
  | cons f fs ih =>
    cases idx with
    | zero =>
      cases j with
      | zero => simp [setImage]
      | succ m => simp [setImage]
    | succ n =>
      cases j with
      | zero => simp [setImage]
      | succ m => simpa [setImage] using ih n m

theorem foldl_setImage_getElem? (g : Nat → Option String) (s : Nat) (n : Nat) :
    ∀ (frames : List FrameData) (j : Nat),
      ((List.range n).foldl (fun acc i => setImage acc (s + i) (g i)) frames)[j]? =
        if s ≤ j ∧ j < s + n then
          (frames[j]?).map (fun f => { f with image := g (j - s) })
        else frames[j]? := by
  induction n with
  | zero =>
    intro frames j
    rw [List.range_zero, List.foldl_nil, if_neg (by omega)]
  | succ n ih =>
    intro frames j
    rw [List.range_succ, List.foldl_append, List.foldl_cons, List.foldl_nil,
      setImage_getElem?, ih]
    by_cases hj : j = s + n
    · subst hj
      rw [if_pos rfl, if_neg (by omega), if_pos (by omega),
        Nat.add_sub_cancel_left]
    · rw [if_neg hj]
      by_cases hin : s ≤ j ∧ j < s + n
      · rw [if_pos hin, if_pos (by omega)]
      · rw [if_neg hin, if_neg (by omega)]

theorem foldl_setImage_length (g : Nat → Option String) (s : Nat) (n : Nat) :
    ∀ frames : List FrameData,
      ((List.range n).foldl (fun acc i => setImage acc (s + i) (g i)) frames).length =
        frames.length := by
  induction n with
  | zero => intro frames; rfl
  | succ n ih =>
    intro frames
    rw [List.range_succ, List.foldl_append, List.foldl_cons, List.foldl_nil,
      setImage_length, ih]

theorem handleGifProcessed_getElem? (frames : List FrameData)
    (gifInfo : GifInfo) (fps : ℚ) (s j : Nat) :
    (handleGifProcessed frames gifInfo fps s)[j]? =
      if s ≤ j ∧ j < endFrameId frames gifInfo fps s then
        (frames[j]?).map (fun f =>
          { f with image := (gifInfo.frames[gifFrameIndex (j - s)
              (availableFrames frames gifInfo fps s) gifInfo.frames.length]?) })
      else frames[j]? := by
  have hfold := foldl_setImage_getElem?
    (fun i => gifInfo.frames[gifFrameIndex i
      (availableFrames frames gifInfo fps s) gifInfo.frames.length]?)
    s (availableFrames frames gifInfo fps s) frames j
  rw [handleGifProcessed, hfold]
  have hA : availableFrames frames gifInfo fps s =
      endFrameId frames gifInfo fps s - s := rfl
  by_cases hc : s ≤ j ∧ j < endFrameId frames gifInfo fps s
  · rw [if_pos (by omega), if_pos hc]
  · rw [if_neg (by omega), if_neg hc]

theorem timeline100_eq :
    timeline100 = (List.range 100).map (fun i => ⟨i, (i : ℚ) / 24, none⟩) := by
  have h : (⌈(25/6 : ℚ) * 24⌉).toNat = 100 := by
    rw [show (⌈(25/6 : ℚ) * 24⌉ : ℤ) = 100 by norm_num]
    rfl
  unfold timeline100
  simp [generateFrames, h]

theorem timeline100_length : timeline100.length = 100 := by
  rw [timeline100_eq, List.length_map, List.length_range]

theorem timeline100_getElem? (i : Nat) (hi : i < 100) :
    timeline100[i]? = some ⟨i, (i : ℚ) / 24, none⟩ := by
  rw [timeline100_eq, List.getElem?_map, List.getElem?_range hi,
    Option.map_some']

theorem gif10_avail : availableFrames timeline100 gif10 24 5 = 24 := by
  unfold availableFrames endFrameId audioFramesForGif gif10
  rw [timeline100_length,
    show (⌈(1 : ℚ) * 24⌉ : ℤ) = 24 by norm_num]
  rfl

theorem gif10_endFrameId : endFrameId timeline100 gif10 24 5 = 29 := by
  unfold endFrameId audioFramesForGif gif10
  rw [timeline100_length,
    show (⌈(1 : ℚ) * 24⌉ : ℤ) = 24 by norm_num]
  rfl

theorem gifFrameIndex_zero : gifFrameIndex 0 24 10 = 0 := by
  unfold gifFrameIndex
  norm_num

theorem gifFrameIndex_last : gifFrameIndex 23 24 10 = 9 := by
  unfold gifFrameIndex
  rw [show (⌊((23 : Nat) : ℚ) / ((24 : Nat) : ℚ) * ((10 : Nat) : ℚ)⌋ : ℤ) = 9
    by norm_num]
  rfl

theorem gifFrameIndex_lt (i a len : Nat) (hlen : 0 < len) :
    gifFrameIndex i a len < len := by
  unfold gifFrameIndex
  have h1 : min ⌊((i : ℚ) / (a : ℚ)) * (len : ℚ)⌋ ((len : Int) - 1) ≤
      (len : Int) - 1 := min_le_right _ _
  omega

/-! ### Claims -/

/-- Claim C1: for every audio duration `d ≥ 0` and `fps > 0`, generating the
timeline when no frame slots exist yet produces exactly `ceil(d*fps)` frame
slots, slot `i` having `id = i`, `time = i/fps` exactly and an empty image;
if the timeline already has at least one slot, generation is a no-op. -/
theorem c1_timeline_generate (d fps : ℚ) (hd : 0 ≤ d) (hfps : 0 < fps) :
    ((generateFrames [] d fps).length : ℤ) = ⌈d * fps⌉ ∧
    (∀ i : Nat, i < (generateFrames [] d fps).length →
      (generateFrames [] d fps)[i]? = some ⟨i, (i : ℚ) / fps, none⟩) ∧
    (∀ frames : List FrameData, frames ≠ [] →
      generateFrames frames d fps = frames) := by
  have hgen : generateFrames [] d fps =
      (List.range (⌈d * fps⌉).toNat).map
        (fun i => ⟨i, (i : ℚ) / fps, none⟩) := by
    simp [generateFrames]
  refine ⟨?_, ?_, ?_⟩
  · rw [hgen, List.length_map, List.length_range]
    exact Int.toNat_of_nonneg (Int.ceil_nonneg (mul_nonneg hd hfps.le))
  · intro i hi
    rw [hgen] at hi ⊢
    rw [List.length_map, List.length_range] at hi
    rw [List.getElem?_map, List.getElem?_range hi, Option.map_some']
  · intro frames hne
    rw [generateFrames, if_neg (by simpa using hne)]

/-- Witness for C1 at `d = 25/6`, `fps = 24` (a 100-slot timeline). -/
theorem c1_witness :
    ((generateFrames [] (25/6 : ℚ) 24).length : ℤ) = ⌈(25/6 : ℚ) * 24⌉ ∧
    (∀ i : Nat, i < (generateFrames [] (25/6 : ℚ) 24).length →
      (generateFrames [] (25/6 : ℚ) 24)[i]? = some ⟨i, (i : ℚ) / 24, none⟩) ∧
    (∀ frames : List FrameData, frames ≠ [] →
      generateFrames frames (25/6 : ℚ) 24 = frames) :=
  c1_timeline_generate (25/6) 24 (by norm_num) (by norm_num)

/-- Counterexample to Claim C3 as stated: with a 10-slot timeline, previous
selection 3 and time `t = 100` (far past the end), the code keeps the
selection at 3 while the claimed clamped value is 9. -/
theorem c3_counterexample :
    selectSlotForTime (some 3) 100 10 = some 3 ∧
    selectSlotForTimeSpec 100 10 = 9 ∧
    selectSlotForTime (some 3) 100 10 ≠
      some (selectSlotForTimeSpec 100 10).toNat := by
  have hfloor : (⌊(100 : ℚ) * FPS⌋ : ℤ) = 2400 := by norm_num [FPS]
  have h1 : selectSlotForTime (some 3) 100 10 = some 3 := by
    rw [selectSlotForTime, if_neg]
    rw [hfloor]
    omega
  have h2 : selectSlotForTimeSpec 100 10 = 9 := by
    rw [selectSlotForTimeSpec, hfloor]
    rfl
  refine ⟨h1, h2, ?_⟩
  rw [h1, h2]
  decide

/-- Claim C3 (amended): selecting the slot for time `t` yields
`floor(t*fps)` when that value lies in `[0, length)`; otherwise (negative
floor, or time at/past the end) the previous selection is kept unchanged
rather than clamped.  The update is idempotent on repeated identical input
and monotonic across in-range times. -/
theorem c3_select_slot (sel : Option Nat) (t : ℚ) (len : Nat) :
    (0 ≤ ⌊t * FPS⌋ → ⌊t * FPS⌋ < (len : Int) →
      selectSlotForTime sel t len = some (⌊t * FPS⌋).toNat) ∧
    (¬ (0 ≤ ⌊t * FPS⌋ ∧ ⌊t * FPS⌋ < (len : Int)) →
      selectSlotForTime sel t len = sel) ∧
    selectSlotForTime (selectSlotForTime sel t len) t len =
      selectSlotForTime sel t len ∧
    (∀ t' : ℚ, t ≤ t' → 0 ≤ ⌊t * FPS⌋ → ⌊t' * FPS⌋ < (len : Int) →
      ∀ a b : Nat, selectSlotForTime sel t len = some a →
        selectSlotForTime sel t' len = some b → a ≤ b) := by
  refine ⟨?_, ?_, ?_, ?_⟩
  · intro h0 hlt
    rw [selectSlotForTime, if_pos ⟨h0, hlt⟩]
  · intro h
    rw [selectSlotForTime, if_neg h]
  · by_cases h : 0 ≤ ⌊t * FPS⌋ ∧ ⌊t * FPS⌋ < (len : Int)
    · have hs : selectSlotForTime sel t len = some (⌊t * FPS⌋).toNat := by
        rw [selectSlotForTime, if_pos h]
      rw [hs, selectSlotForTime, if_pos h]
    · have hs : selectSlotForTime sel t len = sel := by
        rw [selectSlotForTime, if_neg h]
      rw [hs, hs]
  · intro t' htt h0 hlt a b ha hb
    have hle : ⌊t * FPS⌋ ≤ ⌊t' * FPS⌋ := by
      refine Int.floor_le_floor ?_
      have hf : (0 : ℚ) ≤ FPS := by norm_num [FPS]
      exact mul_le_mul_of_nonneg_right htt hf
    rw [selectSlotForTime, if_pos ⟨h0, lt_of_le_of_lt hle hlt⟩] at ha
    rw [selectSlotForTime, if_pos ⟨le_trans h0 hle, hlt⟩] at hb
    obtain rfl : (⌊t * FPS⌋).toNat = a := Option.some.inj ha
    obtain rfl : (⌊t' * FPS⌋).toNat = b := Option.some.inj hb
    exact Int.toNat_le_toNat hle

/-- Witness for C3 (amended) at `sel = some 0`, `t = 1/24`, `len = 10`. -/
theorem c3_witness :
    selectSlotForTime (some 0) (1/24) 10 = some (⌊(1/24 : ℚ) * FPS⌋).toNat :=
  (c3_select_slot (some 0) (1/24) 10).1 (by norm_num [FPS]) (by norm_num [FPS])

/-- Claim C2: for every GIF asset, timeline, fps and start slot id, each
offset `i` in `[0, available)` receives
`gifAsset.frames[min(floor(i/available * len), len-1)]`; in particular with
10 GIF frames, `totalDuration = 1`, `fps = 24`, start slot 5 and a 100-slot
timeline, slots 5..28 are filled, slot 5 gets GIF frame 0 and slot 28 gets
GIF frame 9. -/
theorem c2_frame_mapper :
    (∀ (frames : List FrameData) (gifInfo : GifInfo) (fps : ℚ) (s i : Nat),
      i < availableFrames frames gifInfo fps s →
      (handleGifProcessed frames gifInfo fps s)[s + i]? =
        (frames[s + i]?).map (fun f =>
          { f with image := (gifInfo.frames[gifFrameIndex i
              (availableFrames frames gifInfo fps s)
              gifInfo.frames.length]?) })) ∧
    availableFrames timeline100 gif10 24 5 = 24 ∧
    ((handleGifProcessed timeline100 gif10 24 5)[5]?).map FrameData.image =
      some (some "g0") ∧
    ((handleGifProcessed timeline100 gif10 24 5)[28]?).map FrameData.image =
      some (some "g9") ∧
    (∀ j : Nat, 5 ≤ j → j < 29 →
      ((handleGifProcessed timeline100 gif10 24 5)[j]?).map
        (fun f => f.image.isSome) = some true) := by
  have hgen : ∀ (frames : List FrameData) (gifInfo : GifInfo) (fps : ℚ)
      (s i : Nat), i < availableFrames frames gifInfo fps s →
      (handleGifProcessed frames gifInfo fps s)[s + i]? =
        (frames[s + i]?).map (fun f =>
          { f with image := (gifInfo.frames[gifFrameIndex i
              (availableFrames frames gifInfo fps s)
              gifInfo.frames.length]?) }) := by
    intro frames gifInfo fps s i hi
    have hA : availableFrames frames gifInfo fps s =
        endFrameId frames gifInfo fps s - s := rfl
    rw [handleGifProcessed_getElem?, if_pos (by omega),
      Nat.add_sub_cancel_left]
  refine ⟨hgen, gif10_avail, ?_, ?_, ?_⟩
  · have h := hgen timeline100 gif10 24 5 0 (by rw [gif10_avail]; omega)
    rw [show (5 : Nat) + 0 = 5 by rfl] at h
    rw [h, timeline100_getElem? 5 (by omega), Option.map_some',
      Option.map_some', gif10_avail,
      show gif10.frames.length = 10 from rfl, gifFrameIndex_zero]
    rfl
  · have h := hgen timeline100 gif10 24 5 23 (by rw [gif10_avail]; omega)
    rw [show (5 : Nat) + 23 = 28 by rfl] at h
    rw [h, timeline100_getElem? 28 (by omega), Option.map_some',
      Option.map_some', gif10_avail,
      show gif10.frames.length = 10 from rfl, gifFrameIndex_last]
    rfl
  · intro j hj5 hj29
    have h := hgen timeline100 gif10 24 5 (j - 5) (by rw [gif10_avail]; omega)
    rw [show 5 + (j - 5) = j by omega] at h
    rw [h, timeline100_getElem? j (by omega), Option.map_some',
      Option.map_some']
    have hlt : gifFrameIndex (j - 5) (availableFrames timeline100 gif10 24 5)
        gif10.frames.length < gif10.frames.length :=
      gifFrameIndex_lt _ _ _ (by
        rw [show gif10.frames.length = 10 from rfl]; omega)
    have hsome : (gif10.frames[gifFrameIndex (j - 5)
        (availableFrames timeline100 gif10 24 5)
        gif10.frames.length]?).isSome = true := by
      rw [List.getElem?_eq_getElem hlt]; rfl
    exact congrArg some hsome

/-- Witness for C2's general clause at the concrete instance `i = 0`,
start slot 5, the 100-slot timeline and the 10-frame 1-second GIF. -/
theorem c2_witness :
    (handleGifProcessed timeline100 gif10 24 5)[5 + 0]? =
      (timeline100[5 + 0]?).map (fun f =>
        { f with image := (gif10.frames[gifFrameIndex 0
            (availableFrames timeline100 gif10 24 5)
            gif10.frames.length]?) }) :=
  c2_frame_mapper.1 timeline100 gif10 24 5 0 (by rw [gif10_avail]; omega)

theorem compositeSpec_length (w h : Nat) :
    ∀ (frames : List GifSubFrame) (snapshot : Canvas),
      (compositeSpec w h frames snapshot).length = frames.length := by
  intro frames
  induction frames with
  | nil => intro snapshot; rfl
  | cons f rest ih => intro snapshot; simp [compositeSpec, ih]

theorem processGifAux_eq_compositeSpec (w h : Nat) :
    ∀ (rest : List GifSubFrame) (pf : GifSubFrame) (canvas snap : Canvas),
      processGifAux w h rest (some pf) canvas (some snap) =
        compositeSpec w h rest (disposeStep w h snap canvas pf.disposalType) := by
  intro rest
  induction rest with
  | nil => intro pf canvas snap; rfl
  | cons f rest ih =>
    intro pf canvas snap
    simp only [processGifAux, compositeSpec, disposeStep]
    rw [ih]
    rfl

/-- Claim C4: the compositor starts frame 0 from a cleared canvas and, for
each later frame, first applies the previous frame's disposal method
(2 clears the canvas, 3 restores the snapshot taken immediately before the
previous frame's patch was drawn, anything else leaves the canvas), then
snapshots the canvas, draws the current patch at its declared offset, and
emits one composited output bitmap per input frame. -/
theorem c4_compositor (w h : Nat) (frames : List GifSubFrame) :
    processGif w h frames = compositeSpec w h frames (clearCanvas w h) ∧
    (processGif w h frames).length = frames.length := by
  have heq : processGif w h frames =
      compositeSpec w h frames (clearCanvas w h) := by
    cases frames with
    | nil => rfl
    | cons f rest =>
      rw [processGif]
      simp only [processGifAux, compositeSpec]
      rw [processGifAux_eq_compositeSpec]
  exact ⟨heq, by rw [heq, compositeSpec_length]⟩

theorem framesToExport_eq_nil (frames : List FrameData)
    (h : ∀ f ∈ frames, isPopulated f = false) :
    framesToExport frames = [] := by
  rw [framesToExport, List.filter_eq_nil_iff]
  intro f hf
  simp [h f hf]

theorem generateMovie_no_frames (frames : List FrameData) (format : String)
    (h : framesToExport frames = []) :
    generateMovie format frames = .error noFramesError := by
  rw [generateMovie, if_pos (by rw [h]; rfl)]

theorem handleExport_aborted (frames : List FrameData) (format : String)
    (h : ∀ f ∈ frames, isPopulated f = false) :
    handleExport frames format = .aborted := by
  rw [handleExport, if_pos]
  right
  rw [List.all_eq_true]
  intro f hf
  simp [h f hf]

theorem isPopulated_eq_false (f : FrameData) :
    isPopulated f = false ↔ (f.image = none ∨ f.image = some "") := by
  rcases hf : f.image with _ | s
  · simp [isPopulated, hf]
  · by_cases hs : s = ""
    · subst hs; simp [isPopulated, hf]
    · simp [isPopulated, hf, hs]

/-- Counterexample to Claim C5 as stated: the in-browser PNG-sequence
export names its archive entries after the populated slots' ids, so with the
five populated slots at ids 10..14 the entries are `frame_0010.png` ..
`frame_0014.png`, not `frame_0000.png` .. `frame_0004.png`. -/
theorem c5_counterexample :
    (framesToExport frames15).length = 5 ∧
    exportAsPngSequence_entryNames frames15 =
      .ok ["frame_0010.png", "frame_0011.png", "frame_0012.png",
           "frame_0013.png", "frame_0014.png"] ∧
    exportAsPngSequence_entryNames frames15 ≠
      .ok ["frame_0000.png", "frame_0001.png", "frame_0002.png",
           "frame_0003.png", "frame_0004.png"] := by
  have h2 : exportAsPngSequence_entryNames frames15 =
      .ok ["frame_0010.png", "frame_0011.png", "frame_0012.png",
           "frame_0013.png", "frame_0014.png"] := by rfl
  refine ⟨by decide, h2, ?_⟩
  intro hcon
  rw [h2] at hcon
  exact absurd (Except.ok.inj hcon) (by decide)

/-- Claim C5 (amended): a `png` export through the worker backend with
exactly 5 populated frame slots yields mimeType `application/zip`,
extension `zip`, and exactly the entries `frame_0000.png`..`frame_0004.png`
regardless of which slot ids are populated; the in-browser PNG-sequence
backend instead names its entries `frame_<slot id, zero-padded>.png`. -/
theorem c5_png_export (frames : List FrameData)
    (h5 : (framesToExport frames).length = 5) :
    generateMovie "png" frames =
      .ok ⟨["frame_0000.png", "frame_0001.png", "frame_0002.png",
            "frame_0003.png", "frame_0004.png"],
           "application/zip", "zip"⟩ ∧
    exportAsPngSequence_entryNames frames =
      .ok ((framesToExport frames).map
        (fun f => "frame_" ++ pad4 f.id ++ ".png")) := by
  constructor
  · rw [generateMovie, if_neg (by omega), if_neg (by decide), if_pos rfl]
    have hlen : ((framesToExport frames).map
        (fun f => f.image.getD "")).length = 5 := by
      rw [List.length_map, h5]
    rw [create_png_sequence_entryNames, hlen]
    rfl
  · rw [exportAsPngSequence_entryNames, if_neg (by omega)]

/-- Witness for C5 (amended) on the fixture whose populated slots are ids
10..14. -/
theorem c5_witness :
    generateMovie "png" frames15 =
      .ok ⟨["frame_0000.png", "frame_0001.png", "frame_0002.png",
            "frame_0003.png", "frame_0004.png"],
           "application/zip", "zip"⟩ ∧
    exportAsPngSequence_entryNames frames15 =
      .ok ((framesToExport frames15).map
        (fun f => "frame_" ++ pad4 f.id ++ ".png")) :=
  c5_png_export frames15 (by decide)

/-- Claim C6: an export request in which no frame slot holds an image fails
with the no-frames-to-export condition before any encoder backend is
invoked (the modal guard aborts, and the worker errors for every format),
and no artifact is produced. -/
theorem c6_empty_export (frames : List FrameData) (format : String)
    (h : ∀ f ∈ frames, isPopulated f = false) :
    handleExport frames format = .aborted ∧
    generateMovie format frames = .error noFramesError :=
  ⟨handleExport_aborted frames format h,
   generateMovie_no_frames frames format (framesToExport_eq_nil frames h)⟩

/-- Witness for C6 on a two-slot timeline with a `null` image and a `''`
image. -/
theorem c6_witness :
    handleExport framesBlank "gif" = .aborted ∧
    generateMovie "gif" framesBlank = .error noFramesError :=
  c6_empty_export framesBlank "gif" (by decide)

theorem id_eq_of_ids_canonical (frames : List FrameData)
    (hwf : frames.map FrameData.id = List.range frames.length)
    (j : Nat) (f : FrameData) (hj : frames[j]? = some f) : f.id = j := by
  have h1 : (frames.map FrameData.id)[j]? = some f.id := by
    rw [List.getElem?_map, hj, Option.map_some']
  rw [hwf] at h1
  have hlt : j < frames.length := by
    by_contra hge
    rw [List.getElem?_eq_none (by omega)] at hj
    exact Option.noConfusion hj
  rw [List.getElem?_range hlt] at h1
  exact (Option.some.inj h1).symm

/-- Claim C7: assigning an image to an out-of-range slot id is a silent
no-op leaving the whole timeline unchanged; assigning to an in-range slot id
(of a timeline whose slot ids are the canonical indices, as produced by
`generateFrames`) replaces exactly that slot's image while every other slot
is left untouched. -/
theorem c7_assign_image (frames : List FrameData) (frameId : Int)
    (image : String) :
    (¬ (0 ≤ frameId ∧ frameId < (frames.length : Int)) →
      handleImageUpload frames frameId image = frames) ∧
    (frames.map FrameData.id = List.range frames.length →
      0 ≤ frameId → frameId < (frames.length : Int) →
      (handleImageUpload frames frameId image)[frameId.toNat]? =
        (frames[frameId.toNat]?).map
          (fun f => { f with image := some image }) ∧
      ∀ j : Nat, j ≠ frameId.toNat →
        (handleImageUpload frames frameId image)[j]? = frames[j]?) := by
  constructor
  · intro h
    rw [handleImageUpload, if_neg h]
  · intro hwf h0 hlt
    rw [handleImageUpload, if_pos ⟨h0, hlt⟩]
    constructor
    · rw [List.getElem?_map]
      cases hj : frames[frameId.toNat]? with
      | none => rfl
      | some f =>
        rw [Option.map_some', Option.map_some']
        have hid := id_eq_of_ids_canonical frames hwf _ f hj
        rw [if_pos (by rw [hid]; exact Int.toNat_of_nonneg h0)]
    · intro j hne
      rw [List.getElem?_map]
      cases hj : frames[j]? with
      | none => rfl
      | some f =>
        rw [Option.map_some']
        have hid := id_eq_of_ids_canonical frames hwf _ f hj
        rw [if_neg (by
          intro hc
          rw [hid] at hc
          exact hne (by omega))]

/-- Witness for C7: an out-of-range assignment on the 3-slot fixture is a
no-op, and an in-range assignment to slot 1 replaces exactly that slot's
image. -/
theorem c7_witness :
    handleImageUpload frames3 5 "x" = frames3 ∧
    (handleImageUpload frames3 1 "x")[(1 : Int).toNat]? =
      (frames3[(1 : Int).toNat]?).map
        (fun f => { f with image := some "x" }) :=
  ⟨(c7_assign_image frames3 5 "x").1 (by decide),
   (((c7_assign_image frames3 1 "x").2 (by decide) (by decide)
      (by decide))).1⟩

/-- Claim C8: the frame mapper is deterministic (it is a pure function of
its arguments in this embedding), never mutates any slot outside the range
`[startSlotId, endFrameId)`, and is a no-op when the start slot is at or
past the timeline end. -/
theorem c8_mapper_locality (frames : List FrameData) (gifInfo : GifInfo)
    (fps : ℚ) (s : Nat) :
    (∀ j : Nat, j < s ∨ endFrameId frames gifInfo fps s ≤ j →
      (handleGifProcessed frames gifInfo fps s)[j]? = frames[j]?) ∧
    (handleGifProcessed frames gifInfo fps s).length = frames.length ∧
    (frames.length ≤ s → handleGifProcessed frames gifInfo fps s = frames) := by
  refine ⟨?_, ?_, ?_⟩
  · intro j hj
    rw [handleGifProcessed_getElem?, if_neg (by omega)]
  · rw [handleGifProcessed]
    exact foldl_setImage_length
      (fun i => gifInfo.frames[gifFrameIndex i
        (availableFrames frames gifInfo fps s) gifInfo.frames.length]?)
      s (availableFrames frames gifInfo fps s) frames
  · intro hs
    have h0 : availableFrames frames gifInfo fps s = 0 := by
      unfold availableFrames endFrameId
      omega
    rw [handleGifProcessed, h0]
    rfl

/-- Witness for C8: slot 0 is untouched when the drop starts at slot 1, and
dropping at slot 5 of the 3-slot fixture is a no-op. -/
theorem c8_witness :
    (handleGifProcessed frames3 gif10 24 1)[0]? = frames3[0]? ∧
    handleGifProcessed frames3 gif10 24 5 = frames3 :=
  ⟨(c8_mapper_locality frames3 gif10 24 1).1 0 (Or.inl (by omega)),
   (c8_mapper_locality frames3 gif10 24 5).2.2 (by decide)⟩

theorem generateMovie_video (frames : List FrameData) (format : String)
    (hfmt : format = "mp4" ∨ format = "webm") :
    generateMovie format frames =
      if (framesToExport frames).length = 0 then .error noFramesError
      else .error videoStubError := by
  rcases hfmt with h | h <;> subst h <;>
    · rw [generateMovie]
      by_cases h0 : (framesToExport frames).length = 0
      · rw [if_pos h0, if_pos h0]
      · rw [if_neg h0, if_neg h0, if_neg (by decide), if_neg (by decide),
          if_pos (by decide)]

/-- Claim C9: a worker `generate` request for `mp4` or `webm` with at least
one populated frame always yields an error response (the video path is a
stub) and never a `complete` response, while `gif` and `png` requests can
complete. -/
theorem c9_video_stub :
    (∀ frames : List FrameData, 1 ≤ (framesToExport frames).length →
      workerGenerate "mp4" frames = .error videoStubError ∧
      workerGenerate "webm" frames = .error videoStubError) ∧
    (∀ (frames : List FrameData) (r : ExportResult),
      workerGenerate "mp4" frames ≠ .complete r) ∧
    (∀ (frames : List FrameData) (r : ExportResult),
      workerGenerate "webm" frames ≠ .complete r) ∧
    (∃ (frames : List FrameData) (r : ExportResult),
      workerGenerate "gif" frames = .complete r) ∧
    (∃ (frames : List FrameData) (r : ExportResult),
      workerGenerate "png" frames = .complete r) := by
  have herr : ∀ (frames : List FrameData) (format : String),
      format = "mp4" ∨ format = "webm" →
      workerGenerate format frames = .error noFramesError ∨
      workerGenerate format frames = .error videoStubError := by
    intro frames format hfmt
    rw [workerGenerate, generateMovie_video frames format hfmt]
    by_cases h0 : (framesToExport frames).length = 0
    · rw [if_pos h0]; left; rfl
    · rw [if_neg h0]; right; rfl
  refine ⟨?_, ?_, ?_, ?_, ?_⟩
  · intro frames h1
    constructor
    · rw [workerGenerate, generateMovie_video frames "mp4" (Or.inl rfl),
        if_neg (by omega)]
    · rw [workerGenerate, generateMovie_video frames "webm" (Or.inr rfl),
        if_neg (by omega)]
  · intro frames r hcon
    rcases herr frames "mp4" (Or.inl rfl) with h | h <;>
      · rw [hcon] at h; exact WorkerResponse.noConfusion h
  · intro frames r hcon
    rcases herr frames "webm" (Or.inr rfl) with h | h <;>
      · rw [hcon] at h; exact WorkerResponse.noConfusion h
  · exact ⟨frames1, ⟨["img"], "image/gif", "gif"⟩, by decide⟩
  · exact ⟨frames1, ⟨["frame_0000.png"], "application/zip", "zip"⟩, by decide⟩

/-- Witness for C9 on the single populated slot fixture. -/
theorem c9_witness :
    workerGenerate "mp4" frames1 = .error videoStubError ∧
    workerGenerate "webm" frames1 = .error videoStubError :=
  c9_video_stub.1 frames1 (by decide)

/-- Claim C10: removing a slot's image assigns the empty string; a slot is
populated iff its image is truthy (neither `null` nor `''`); consequently a
slot with an empty-string or `null` image is excluded from the frames handed
to every encoder backend and counts as empty for the no-frames-to-export
check. -/
theorem c10_empty_image_semantics (frames : List FrameData) (frameId : Int)
    (format : String) :
    handleRemoveImage frames frameId = handleImageUpload frames frameId "" ∧
    (∀ f : FrameData,
      isPopulated f = false ↔ (f.image = none ∨ f.image = some "")) ∧
    (∀ f : FrameData,
      f ∈ framesToExport frames ↔ (f ∈ frames ∧ isPopulated f = true)) ∧
    ((∀ f ∈ frames, f.image = none ∨ f.image = some "") →
      handleExport frames format = .aborted ∧
      generateMovie format frames = .error noFramesError ∧
      exportAsPngSequence_entryNames frames = .error noFramesError) := by
  refine ⟨rfl, isPopulated_eq_false, ?_, ?_⟩
  · intro f
    simp [framesToExport, List.mem_filter]
  · intro h
    have hpop : ∀ f ∈ frames, isPopulated f = false :=
      fun f hf => (isPopulated_eq_false f).mpr (h f hf)
    have hnil := framesToExport_eq_nil frames hpop
    refine ⟨handleExport_aborted frames format hpop,
      generateMovie_no_frames frames format hnil, ?_⟩
    rw [exportAsPngSequence_entryNames, if_pos (by rw [hnil]; rfl)]

/-- Witness for C10 on the two-slot fixture with a `null` and a `''`
image. -/
theorem c10_witness :
    handleExport framesBlank "png" = .aborted ∧
    generateMovie "png" framesBlank = .error noFramesError ∧
    exportAsPngSequence_entryNames framesBlank = .error noFramesError :=
  (c10_empty_image_semantics framesBlank 0 "png").2.2.2 (by decide)

end MVAnimator
